import Mathlib

/-!
# Verification of the b4ck-client control protocol and relay

A shallow embedding of the b4ck-client reverse-tunnel client: the
length-prefixed message codec (`RcvMsg`/`SndMsg` in proxy.go), the
rendezvous-session state machine (`Context.remote`), the scheduler worker
(`Context.worker`), the local handoff (`Context.local`), the bidirectional
relay (`Proxy.Transfer`/`Proxy.copy`), and startup configuration
(`GetContext`).

Modelling conventions:
* Go strings and byte slices are modelled as `List Nat`, each element a
  byte value below 256 (all protocol literals are ASCII).
* Machine integers that cannot realistically overflow (byte counters,
  ports) are modelled as `Nat`/`Int`.
* I/O outcomes (dial, deadline, send, receive) are explicit boolean or
  event inputs; the network is a byte list.
* The external JSON library (json-iterator `ConfigFastest`) is modelled by
  `jsonMarshal`, which reproduces its output format for this struct
  (declared field order, `omitempty`, base64 for byte slices); where a
  theorem quantifies over the library it takes marshal/unmarshal as
  explicit function arguments constrained by the library contract.
-/

/-- Byte sequence of an ASCII string literal (Go strings are UTF-8 byte
slices; all literals in this program are ASCII). -/
def str (s : String) : List Nat := s.toList.map Char.toNat

/-- The control message structure `Msg` from proxy.go: fields `Type`,
`Text`, `Port`, `Key`, `Fast`, `Addr` in declared order, all but `Type`
tagged `json:",omitempty"`. String fields are byte sequences. -/
structure Msg where
  type_ : List Nat
  text : List Nat
  port : Int
  key : List Nat
  fast : Bool
  addr : List Nat
deriving DecidableEq, Repr

/-- A `Msg` with only its `Type` field set (other fields at Go zero
values), as in literals like `&Msg{Type: "keepalive"}`. -/
def mkMsg (t : String) : Msg :=
  { type_ := str t, text := [], port := 0, key := [], fast := false, addr := [] }

/-- `Msg{Type: "keepalive"}`. -/
def keepaliveMsg : Msg := mkMsg "keepalive"

/-- `Msg{Type: "info", Text: "TIMEOUT"}` sent by an idle fast-lane session. -/
def timeoutMsg : Msg := { mkMsg "info" with text := str "TIMEOUT" }

/-- `Msg{Type: "success"}` sent by the handoff once the local dial worked. -/
def successMsg : Msg := mkMsg "success"

/-! ## Model of the external JSON encoder (json-iterator `ConfigFastest`)

`jsonMarshal` reproduces the byte output of `json.Marshal` on a `*Msg`:
an object with the struct fields in declared order, fields at their Go
zero value omitted (`omitempty`), `[]byte` encoded as a padded
standard-base64 JSON string, and JSON string escaping (no HTML escaping
under `ConfigFastest`). -/

/-- Hexadecimal digit character code (lower case), used in `\u00XX`
escapes of control characters. -/
def hexDigit (n : Nat) : Nat := if n < 10 then 48 + n else 87 + n

/-- JSON escaping of one byte of a string: quote and backslash are
backslash-escaped, newline/carriage-return/tab use their short escapes,
other control bytes become `\u00XX`, everything else is literal. -/
def escByte (b : Nat) : List Nat :=
  if b = 34 then [92, 34]
  else if b = 92 then [92, 92]
  else if b = 10 then [92, 110]
  else if b = 13 then [92, 114]
  else if b = 9 then [92, 116]
  else if b < 32 then [92, 117, 48, 48, hexDigit (b / 16), hexDigit (b % 16)]
  else [b]

/-- JSON escaping of a whole string (byte sequence). -/
def jsonEscape (s : List Nat) : List Nat := (s.map escByte).flatten

/-- A JSON string literal: opening quote, escaped content, closing quote. -/
def quote (s : List Nat) : List Nat := 34 :: jsonEscape s ++ [34]

/-- Decimal digits of a natural number, as byte values. -/
def natBytes (n : Nat) : List Nat := (Nat.toDigits 10 n).map Char.toNat

/-- Decimal representation of an integer, as byte values. -/
def intBytes (i : Int) : List Nat :=
  if i < 0 then 45 :: natBytes (-i).toNat else natBytes i.toNat

/-- The standard base64 alphabet, as byte values. -/
def b64Alphabet : List Nat :=
  str "ABCDEFGHIJKLMNOPQRSTUVWXYZabcdefghijklmnopqrstuvwxyz0123456789+/"

/-- Character of the standard base64 alphabet at a sextet value. -/
def b64Char (n : Nat) : Nat := b64Alphabet.getD n 65

/-- Padded standard base64 of a byte sequence (how `encoding/json` and
json-iterator encode a `[]byte` field). -/
def base64 : List Nat → List Nat
  | [] => []
  | [a] => [b64Char (a / 4), b64Char (a % 4 * 16), 61, 61]
  | [a, b] => [b64Char (a / 4), b64Char (a % 4 * 16 + b / 16), b64Char (b % 16 * 4), 61]
  | a :: b :: c :: rest =>
    b64Char (a / 4) :: b64Char (a % 4 * 16 + b / 16) ::
      b64Char (b % 16 * 4 + c / 64) :: b64Char (c % 64) :: base64 rest

/-- Output of `json.Marshal` on a `*Msg`: `Type` always present, the
other fields present only when not at their Go zero value, in declared
order.  `123`/`125` are the object braces, `44` the comma. -/
def jsonMarshal (m : Msg) : List Nat :=
  [123] ++ (str "\"Type\":" ++ quote m.type_)
    ++ (if m.text = [] then [] else 44 :: str "\"Text\":" ++ quote m.text)
    ++ (if m.port = 0 then [] else 44 :: str "\"Port\":" ++ intBytes m.port)
    ++ (if m.key = [] then [] else 44 :: str "\"Key\":" ++ quote (base64 m.key))
    ++ (if m.fast = false then [] else 44 :: str "\"Fast\":true")
    ++ (if m.addr = [] then [] else 44 :: str "\"Addr\":" ++ quote m.addr)
    ++ [125]

/-! ## The framing codec (`SndMsg` / `RcvMsg` in proxy.go) -/

/-- The byte sequence `SndMsg` writes for message `m`: a one-byte length
prefix `byte(len(serialized))` — i.e. the length reduced modulo 256 —
followed by the serialized payload.  `marshal` is the external JSON
encoder. -/
def sndMsgBytes (marshal : Msg → List Nat) (m : Msg) : List Nat :=
  (marshal m).length % 256 :: marshal m

/-- `SndMsg(w, m)`: serialize `m` and perform one write of the length
prefix followed by the payload.  `json.Marshal` cannot fail on this
struct, so the only failure is the write itself (`writeOk = false`);
on success the result is the byte sequence put on the wire. -/
def sndMsg (marshal : Msg → List Nat) (writeOk : Bool) (m : Msg) :
    Except Unit (List Nat) :=
  if writeOk then Except.ok (sndMsgBytes marshal m) else Except.error ()

/-- `RcvMsg(r)` over a stream holding the byte sequence `s`: read one
length byte (failing on an empty stream), read exactly that many payload
bytes (failing if fewer are available), then `json.Unmarshal` the
payload.  On success, returns the message and the unread rest of the
stream. -/
def rcvMsg (unmarshal : List Nat → Except Unit Msg) (s : List Nat) :
    Except Unit (Msg × List Nat) :=
  match s with
  | [] => Except.error ()
  | len :: rest =>
    if rest.length < len then Except.error ()
    else
      match unmarshal (rest.take len) with
      | Except.ok m => Except.ok (m, rest.drop len)
      | Except.error e => Except.error e

/-! ## The rendezvous session state machine (`Context.remote`)

`remote` is modelled as a function of the session lane (`fast`), the
shared context, and an environment giving the outcome of each I/O step:
the dial, the initial deadline, the TLS handshake, the `listen` send, and
then one `RecvEvent` per iteration of the receive loop.  Alongside the
integer retry hint it returns the ordered list of protocol `Effect`s it
performed (messages sent, deadline refreshes, goroutines spawned). -/

/-- The shared session context built by `GetContext`: remote and local
addresses, the registered public port, the 6-byte key, and whether TLS
is configured (`c.tlsConfig != nil`). -/
structure Context where
  raddr : List Nat
  laddr : List Nat
  port : Int
  key : List Nat
  tlsEnabled : Bool
deriving DecidableEq, Repr

/-- One iteration of `remote`'s receive loop: either `RcvMsg` fails, or a
message arrives together with the outcomes of the send (`sendOk`) and
deadline refresh (`deadlineOk`) that handling it may perform. -/
inductive RecvEvent where
  | recvFail
  | recv (m : Msg) (sendOk : Bool) (deadlineOk : Bool)
deriving DecidableEq, Repr

/-- An observable protocol action of the session or handoff. -/
inductive Effect where
  | send (m : Msg)
  | setDeadline
  | spawnLocal (m : Msg)
  | spawnFast
deriving DecidableEq, Repr

/-- How a run of `remote` ended: with a retry hint returned to the
worker, with `os.Exit(1)` (an `error` message), or still inside the
receive loop when the supplied event trace ran out. -/
inductive RemoteResult where
  | hint (n : Nat)
  | exited
  | running
deriving DecidableEq, Repr

/-- `Msg{Type: "listen", Port: c.port, Key: c.key}` sent to authenticate. -/
def listenMsg (c : Context) : Msg :=
  { mkMsg "listen" with port := c.port, key := c.key }

/-- The receive loop of `remote` (the `for`/`switch` over `message.Type`):
dispatches each received message exactly as the source does.  `start`
hands the connection to `local` and, when the session itself is
fast-lane, spawns one replacement fast session, returning hint 0.
`keepalive` on a fast session sends `info{TIMEOUT}` and returns hint 0
even if that send fails; on a slow session it sends `keepalive` (send
failure: hint 9), refreshes the deadline (failure: hint 9) and loops.
`debug`/`info`/`warning` log and return hint 0; `error` exits the
process; an unrecognized type logs and loops. -/
def remoteLoop (fast : Bool) : List RecvEvent → List Effect × RemoteResult
  | [] => ([], RemoteResult.running)
  | RecvEvent.recvFail :: _ => ([], RemoteResult.hint 9)
  | RecvEvent.recv m sendOk deadlineOk :: rest =>
    if m.type_ = str "start" then
      (Effect.spawnLocal m :: (if fast then [Effect.spawnFast] else []),
        RemoteResult.hint 0)
    else if m.type_ = str "keepalive" then
      if fast then
        ([Effect.send timeoutMsg], RemoteResult.hint 0)
      else if !sendOk then
        ([Effect.send keepaliveMsg], RemoteResult.hint 9)
      else if !deadlineOk then
        ([Effect.send keepaliveMsg, Effect.setDeadline], RemoteResult.hint 9)
      else
        let r := remoteLoop fast rest
        (Effect.send keepaliveMsg :: Effect.setDeadline :: r.1, r.2)
    else if m.type_ = str "debug" ∨ m.type_ = str "info" ∨ m.type_ = str "warning" then
      ([], RemoteResult.hint 0)
    else if m.type_ = str "error" then
      ([], RemoteResult.exited)
    else
      remoteLoop fast rest

/-- The I/O environment of one `remote` run before the receive loop. -/
structure RemoteEnv where
  dialOk : Bool
  deadlineOk : Bool
  tlsOk : Bool
  sendListenOk : Bool
  events : List RecvEvent
deriving Repr

/-- `Context.remote(fast)`: dial (failure: hint 9), set the initial
deadline (failure: hint 99), TLS handshake when configured (failure:
hint 9), send `listen{Port, Key}` (failure: hint 9), then run the
receive loop. -/
def remote (c : Context) (fast : Bool) (env : RemoteEnv) :
    List Effect × RemoteResult :=
  if !env.dialOk then ([], RemoteResult.hint 9)
  else if !env.deadlineOk then ([], RemoteResult.hint 99)
  else if c.tlsEnabled && !env.tlsOk then ([], RemoteResult.hint 9)
  else if !env.sendListenOk then ([Effect.send (listenMsg c)], RemoteResult.hint 9)
  else
    let r := remoteLoop fast env.events
    (Effect.send (listenMsg c) :: r.1, r.2)

/-- Number of fast-lane sessions spawned among a list of effects. -/
def spawnFastCount (es : List Effect) : Nat :=
  (es.filter fun e => e = Effect.spawnFast).length

/-! ## The scheduler worker (`Context.worker`) -/

/-- Model of `rand.Intn(n)`: a value in `[0, n)` determined by the
generator draw `r`. -/
def intn (n r : Nat) : Nat := r % n

/-- The backoff sleep of `Context.worker` for a nonzero retry hint
`delay`, in milliseconds: `ms := 1000 + rand.Intn(delay*1000)`. -/
def workerSleepMs (delay r : Nat) : Nat := 1000 + intn (delay * 1000) r

/-! ## The local handoff (`Context.local`) -/

/-- An observable step of `Context.local`, in execution order, including
the deferred closes of the rendezvous (`closeR`) and local (`closeL`)
connections. -/
inductive LocalEvent where
  | spawnFast
  | dialLocal (ok : Bool)
  | setDeadline (ok : Bool)
  | sendSuccess (ok : Bool)
  | transfer
  | closeL
  | closeR
deriving DecidableEq, Repr

/-- `Context.local(logger, message, rconn)` as its ordered event trace:
`rconn.Close()` is deferred to every exit; if `message.Fast`, two extra
fast sessions are spawned first; then the local dial (failure: return),
the local deadline (failure: return), the `success` send (failure:
return), and the transfer.  `lconn.Close()` is deferred once the dial
succeeded; Go runs deferred calls in reverse order, so `closeL` precedes
`closeR`. -/
def localRun (m : Msg) (dialOk deadlineOk sendOk : Bool) : List LocalEvent :=
  (if m.fast then [LocalEvent.spawnFast, LocalEvent.spawnFast] else [])
    ++ LocalEvent.dialLocal dialOk ::
      (if !dialOk then [LocalEvent.closeR]
       else LocalEvent.setDeadline deadlineOk ::
         (if !deadlineOk then [LocalEvent.closeL, LocalEvent.closeR]
          else LocalEvent.sendSuccess sendOk ::
            (if !sendOk then [LocalEvent.closeL, LocalEvent.closeR]
             else [LocalEvent.transfer, LocalEvent.closeL, LocalEvent.closeR])))

/-- Number of fast-lane sessions spawned by a handoff event trace. -/
def localSpawnFastCount (es : List LocalEvent) : Nat :=
  (es.filter fun e => e = LocalEvent.spawnFast).length

/-! ## The relay (`Proxy.Transfer` / `Proxy.copy`) -/

/-- The dynamic type of a connection handed to the relay: every
connection in this program is either a plain `*net.TCPConn` or a
`*tls.Conn` wrapping one. -/
inductive ConnKind where
  | tcp
  | tls
deriving DecidableEq, Repr

/-- A socket-level action `Proxy.copy` performs after its `io.Copy`
settles. -/
inductive CopyAction where
  | closeWriteDst
  | resetDst
  | resetSrc
deriving DecidableEq, Repr

/-- The tail of `Proxy.copy(dst, src, bytes)` once `io.Copy` returned:
on a clean end (`err == nil`) the destination gets a write-side close
(`CloseWrite`, sending TCP FIN or TLS close_notify) whichever of the two
connection kinds it is; on an error, `SetLinger(0)` resets whichever of
`dst` and `src` is a plain `*net.TCPConn` — the type assertion fails on
a `*tls.Conn`, which is left alone. -/
def copyActions (dstKind srcKind : ConnKind) (errOccurred : Bool) :
    List CopyAction :=
  if !errOccurred then
    match dstKind with
    | ConnKind.tcp => [CopyAction.closeWriteDst]
    | ConnKind.tls => [CopyAction.closeWriteDst]
  else
    (match dstKind with
     | ConnKind.tcp => [CopyAction.resetDst]
     | ConnKind.tls => [])
      ++ (match srcKind with
          | ConnKind.tcp => [CopyAction.resetSrc]
          | ConnKind.tls => [])

/-- The byte counters of a `Proxy` (`rcvd`, `sent`), zero-initialized by
`GetProxy`. -/
structure Proxy where
  rcvd : Nat
  sent : Nat
deriving DecidableEq, Repr

/-- `GetProxy`: fresh counters. -/
def getProxy : Proxy := { rcvd := 0, sent := 0 }

/-- `Proxy.Transfer(lconn, rconn)` with the two copy directions settled:
the local→remote copy adds its byte count to `p.sent`, the remote→local
copy adds to `p.rcvd`, and the return value is `p.sent + p.rcvd`. -/
def transfer (p : Proxy) (localToRemote remoteToLocal : Nat) : Nat :=
  let p1 := { p with sent := p.sent + localToRemote }
  let p2 := { p1 with rcvd := p1.rcvd + remoteToLocal }
  p2.sent + p2.rcvd

/-! ## Startup configuration (`GetContext`) -/

/-- The inputs `GetContext` consumes: which mandatory flags were seen,
the flag values, and the outcomes of the two external lookups (the TCP
port lookup on the last component of `-r`, and the base64 decode of
`-k`; `none` models failure). -/
structure Flags where
  raddrSeen : Bool
  keySeen : Bool
  raddr : List Nat
  laddr : List Nat
  portLookup : Option Int
  keyDecode : Option (List Nat)
  noTLS : Bool
deriving Repr

/-- `GetContext()` up to the point where a `Context` is returned: a
missing `-r` or `-k` flag exits with code 2; a failed port lookup, a
failed base64 decode, or a decoded key of length other than 6 exits with
code 1; otherwise the context is built (TLS configured unless `-t` was
given) and only then does `main` start any worker, so an `Except.error`
is reached before any network connection is attempted. -/
def getContext (f : Flags) : Except Nat Context :=
  if !f.raddrSeen ∨ !f.keySeen then Except.error 2
  else
    match f.portLookup with
    | none => Except.error 1
    | some port =>
      match f.keyDecode with
      | none => Except.error 1
      | some key =>
        if key.length ≠ 6 then Except.error 1
        else Except.ok
          { raddr := f.raddr, laddr := f.laddr, port := port, key := key,
            tlsEnabled := !f.noTLS }

/-! ## Claim C7: the relay result is the sum of both directions -/

/-- C7: for every relay run to completion, the value returned by
`Transfer` equals the bytes copied local→remote plus the bytes copied
remote→local. -/
theorem c7_transfer_sum (localToRemote remoteToLocal : Nat) :
    transfer getProxy localToRemote remoteToLocal =
      localToRemote + remoteToLocal := by
  simp [transfer, getProxy, Nat.add_comm]

/-! ## Claim C6: close semantics of the first finishing copy direction -/

/-- C6 counterexample: when the destination of the failing direction is a
TLS connection, `Proxy.copy` performs no reset on it — the claim that an
error "forces a reset on both underlying sockets" fails. -/
theorem c6_counterexample :
    CopyAction.resetDst ∉ copyActions ConnKind.tls ConnKind.tcp true := by
  decide

/-- C6 amended: a direction ending cleanly always half-closes its
destination (TCP FIN or TLS close_notify); one ending in error resets
exactly those of the two endpoints that are plain TCP connections — a
TLS-wrapped connection is never reset. -/
theorem c6_halfclose_and_reset : ∀ dstKind srcKind : ConnKind,
    copyActions dstKind srcKind false = [CopyAction.closeWriteDst] ∧
    (CopyAction.resetDst ∈ copyActions dstKind srcKind true ↔
      dstKind = ConnKind.tcp) ∧
    (CopyAction.resetSrc ∈ copyActions dstKind srcKind true ↔
      srcKind = ConnKind.tcp) := by
  intro dstKind srcKind
  cases dstKind <;> cases srcKind <;> decide

/-! ## Claim C3: the worker's backoff sleep range -/

/-- C3 counterexample: with retry hint 9 the sleep can reach 9999 ms,
above the 9 seconds the claim allows. -/
theorem c3_counterexample :
    workerSleepMs 9 8999 = 9999 ∧ 9000 < workerSleepMs 9 8999 := by
  decide

/-- C3 amended: for a nonzero retry hint `delay`, the worker sleeps
`1000 + rand.Intn(delay*1000)` milliseconds — at least one second and at
most `delay * 1000 + 999` ms, i.e. strictly below `delay + 1` seconds
(for hint 9: within [1000, 9999] ms, never 0, but up to 9.999 s). -/
theorem c3_sleep_range (delay r : Nat) (h : 0 < delay) :
    1000 ≤ workerSleepMs delay r ∧
      workerSleepMs delay r ≤ delay * 1000 + 999 := by
  unfold workerSleepMs intn
  have hpos : 0 < delay * 1000 := by positivity
  have hlt : r % (delay * 1000) < delay * 1000 := Nat.mod_lt r hpos
  omega

/-- Witness for C3 amended at hint 9 and draw 8999. -/
theorem c3_sleep_range_witness :
    1000 ≤ workerSleepMs 9 8999 ∧ workerSleepMs 9 8999 ≤ 9 * 1000 + 999 :=
  c3_sleep_range 9 8999 (by decide)

/-! ## Claim C2: `SndMsg` and the 255-byte payload limit -/

/-- An `info` message whose `Text` is 300 letters `a`: its serialized
payload is 325 bytes, beyond what the one-byte length prefix can
represent. -/
def oversizedMsg : Msg := { mkMsg "info" with text := List.replicate 300 97 }

set_option maxRecDepth 8000 in
/-- C2 failing input: `SndMsg` has no payload-size check — on a message
whose payload is 325 bytes it succeeds and writes a length prefix of
`325 % 256 = 69`, a silently wrapped frame, where the claim requires an
error. -/
theorem c2_wrapped_length :
    (jsonMarshal oversizedMsg).length = 325 ∧
    255 < (jsonMarshal oversizedMsg).length ∧
    sndMsg jsonMarshal true oversizedMsg =
      Except.ok (69 :: jsonMarshal oversizedMsg) ∧
    (jsonMarshal oversizedMsg).length % 256 ≠ (jsonMarshal oversizedMsg).length := by
  refine ⟨by decide, by decide, ?_, by decide⟩
  rfl

/-! ## Claim C8: only a 6-byte key reaches session startup -/

/-- C8: a configured key whose base64 decoding yields other than 6 raw
bytes makes `GetContext` exit the process (before `main` spawns any
worker, hence before any network connection), and every `Context` that
reaches session startup carries a 6-byte key. -/
theorem c8_key_length :
    (∀ (f : Flags) (key : List Nat), f.keyDecode = some key →
      key.length ≠ 6 → ∃ code, getContext f = Except.error code) ∧
    (∀ (f : Flags) (c : Context), getContext f = Except.ok c →
      c.key.length = 6) := by
  constructor
  · intro f key hdec hlen
    unfold getContext
    split_ifs with hflags
    · exact ⟨2, rfl⟩
    · cases hp : f.portLookup with
      | none => exact ⟨1, rfl⟩
      | some port =>
        refine ⟨1, ?_⟩
        rw [hdec]
        exact if_pos hlen
  · intro f c h
    unfold getContext at h
    split at h
    · exact absurd h (by simp)
    · split at h
      · exact absurd h (by simp)
      · split at h
        · exact absurd h (by simp)
        · split at h
          · exact absurd h (by simp)
          · cases h
            simp_all

/-- Flags whose key decodes to only 3 raw bytes. -/
def shortKeyFlags : Flags :=
  { raddrSeen := true, keySeen := true, raddr := str "free.b4ck.net:1",
    laddr := str ":80", portLookup := some 443, keyDecode := some [1, 2, 3],
    noTLS := false }

/-- The same flags with a correctly sized 6-byte key. -/
def goodKeyFlags : Flags :=
  { shortKeyFlags with keyDecode := some [1, 2, 3, 4, 5, 6] }

/-- Witness for C8: the 3-byte key is rejected with a process exit, and
the context built from the 6-byte key carries a key of length 6. -/
theorem c8_key_length_witness :
    (∃ code, getContext shortKeyFlags = Except.error code) ∧
    (Context.mk (str "free.b4ck.net:1") (str ":80") 443 [1, 2, 3, 4, 5, 6]
      true).key.length = 6 :=
  ⟨c8_key_length.1 shortKeyFlags [1, 2, 3] rfl (by decide),
   c8_key_length.2 goodKeyFlags _ rfl⟩

/-! ## Claim C4: decode after encode reproduces the message -/

/-- C4: for every message whose serialized payload fits the 255-byte
bound, receiving right after sending over the same stream reproduces the
message exactly and consumes exactly the frame, for any JSON
encoder/decoder pair satisfying the library round-trip contract at that
message. -/
theorem c4_roundtrip (marshal : Msg → List Nat)
    (unmarshal : List Nat → Except Unit Msg) (m : Msg) (rest : List Nat)
    (hinv : unmarshal (marshal m) = Except.ok m)
    (hlen : (marshal m).length ≤ 255) :
    rcvMsg unmarshal (sndMsgBytes marshal m ++ rest) =
      Except.ok (m, rest) := by
  have hmod : (marshal m).length % 256 = (marshal m).length :=
    Nat.mod_eq_of_lt (by omega)
  have hnlt : ¬ (marshal m ++ rest).length < (marshal m).length := by
    rw [List.length_append]; omega
  simp only [sndMsgBytes, List.cons_append, rcvMsg, hmod, if_neg hnlt,
    List.take_left, List.drop_left, hinv]

/-- A sample decoder for the witness: inverts `jsonMarshal` on the
keepalive message. -/
def sampleUnmarshal (s : List Nat) : Except Unit Msg :=
  if s = jsonMarshal keepaliveMsg then Except.ok keepaliveMsg
  else Except.error ()

/-- Witness for C4 at the keepalive message with one unread byte left on
the stream. -/
theorem c4_roundtrip_witness :
    rcvMsg sampleUnmarshal (sndMsgBytes jsonMarshal keepaliveMsg ++ [55]) =
      Except.ok (keepaliveMsg, [55]) :=
  c4_roundtrip jsonMarshal sampleUnmarshal keepaliveMsg [55]
    (by simp [sampleUnmarshal]) (by decide)

/-! ## Claim C5: keepalive handling by lane -/

/-- C5: a fast-lane session in the receive loop answering a `keepalive`
replies `info{Text:"TIMEOUT"}` and terminates with retry hint 0
(whatever the outcome of that send); a slow-lane session whose reply and
deadline refresh succeed replies `keepalive`, refreshes the read
deadline, and goes on to process the remaining events unchanged. -/
theorem c5_keepalive_by_lane (m : Msg) (sendOk deadlineOk : Bool)
    (rest : List RecvEvent) (hm : m.type_ = str "keepalive") :
    remoteLoop true (RecvEvent.recv m sendOk deadlineOk :: rest) =
      ([Effect.send timeoutMsg], RemoteResult.hint 0) ∧
    (sendOk = true → deadlineOk = true →
      remoteLoop false (RecvEvent.recv m sendOk deadlineOk :: rest) =
        (Effect.send keepaliveMsg :: Effect.setDeadline ::
          (remoteLoop false rest).1, (remoteLoop false rest).2)) := by
  constructor
  · rw [remoteLoop, if_neg (by rw [hm]; decide), if_pos hm]
    rfl
  · intro hs hd
    subst hs hd
    rw [remoteLoop, if_neg (by rw [hm]; decide), if_pos hm]
    simp

/-- Witness for C5 at the literal keepalive message with successful I/O
and an empty remaining trace. -/
theorem c5_keepalive_by_lane_witness :
    remoteLoop true [RecvEvent.recv keepaliveMsg true true] =
      ([Effect.send timeoutMsg], RemoteResult.hint 0) ∧
    (true = true → true = true →
      remoteLoop false [RecvEvent.recv keepaliveMsg true true] =
        (Effect.send keepaliveMsg :: Effect.setDeadline ::
          (remoteLoop false []).1, (remoteLoop false []).2)) :=
  c5_keepalive_by_lane keepaliveMsg true true [] rfl

/-! ## Claim C1: fast-lane replenishment on `start` -/

/-- A `start` message with `Fast=false` (`Addr` as in Scenario A). -/
def startNoFastMsg : Msg := { mkMsg "start" with addr := str "1.2.3.4:5555" }

/-- A `start` message with `Fast=true`. -/
def startFastMsg : Msg := { startNoFastMsg with fast := true }

/-- C1 counterexample: a fast-lane session receiving `start{Fast:false}`
spawns one replacement fast session from the promotion transition — the
spawn is keyed to the receiving session's own lane, not to the message's
`Fast` field, so the claim's "Fast=false means no extra spawns" fails. -/
theorem c1_counterexample :
    startNoFastMsg.fast = false ∧
    spawnFastCount
      (remoteLoop true [RecvEvent.recv startNoFastMsg true true]).1 = 1 ∧
    ¬ spawnFastCount
      (remoteLoop true [RecvEvent.recv startNoFastMsg true true]).1 = 0 := by
  decide

/-- C1 amended: the promotion transition spawns one replacement
fast-lane session exactly when the receiving session is itself
fast-lane, independent of the message's `Fast` field; the handoff spawns
two additional fast sessions exactly when the message's `Fast` field is
true; three spawns total occur when a fast-lane session receives a
`start` with `Fast=true`. -/
theorem c1_spawn_policy (fast : Bool) (m : Msg)
    (sendOk deadlineOk dialOk localDeadlineOk successOk : Bool)
    (rest : List RecvEvent) (hm : m.type_ = str "start") :
    spawnFastCount
        (remoteLoop fast (RecvEvent.recv m sendOk deadlineOk :: rest)).1 =
      (if fast then 1 else 0) ∧
    localSpawnFastCount (localRun m dialOk localDeadlineOk successOk) =
      (if m.fast then 2 else 0) ∧
    (fast = true → m.fast = true →
      spawnFastCount
          (remoteLoop fast (RecvEvent.recv m sendOk deadlineOk :: rest)).1 +
        localSpawnFastCount (localRun m dialOk localDeadlineOk successOk) = 3) := by
  have h1 : spawnFastCount
      (remoteLoop fast (RecvEvent.recv m sendOk deadlineOk :: rest)).1 =
      (if fast then 1 else 0) := by
    rw [remoteLoop, if_pos hm]
    cases fast <;> simp [spawnFastCount]
  have h2 : localSpawnFastCount (localRun m dialOk localDeadlineOk successOk) =
      (if m.fast then 2 else 0) := by
    cases hf : m.fast <;>
      cases dialOk <;> cases localDeadlineOk <;> cases successOk <;>
        simp [localRun, localSpawnFastCount, hf]
  refine ⟨h1, h2, fun hfast hmf => ?_⟩
  rw [h1, h2, hfast, hmf]
  simp

/-- Witness for C1 amended: a fast-lane session receiving
`start{Fast:true}` with all handoff I/O succeeding. -/
theorem c1_spawn_policy_witness :
    spawnFastCount
        (remoteLoop true (RecvEvent.recv startFastMsg true true :: [])).1 =
      (if true then 1 else 0) ∧
    localSpawnFastCount (localRun startFastMsg true true true) =
      (if startFastMsg.fast then 2 else 0) ∧
    (true = true → startFastMsg.fast = true →
      spawnFastCount
          (remoteLoop true (RecvEvent.recv startFastMsg true true :: [])).1 +
        localSpawnFastCount (localRun startFastMsg true true true) = 3) :=
  c1_spawn_policy true startFastMsg true true true true true [] rfl

/-! ## Claim C9: the retry hints of `remote` -/

/-- The receive loop only ever returns the hints 0 and 9. -/
theorem remoteLoop_hint_values (fast : Bool) (evs : List RecvEvent) (n : Nat)
    (h : (remoteLoop fast evs).2 = RemoteResult.hint n) : n = 0 ∨ n = 9 := by
  induction evs with
  | nil => simp [remoteLoop] at h
  | cons e rest ih =>
    cases e with
    | recvFail =>
      simp only [remoteLoop, RemoteResult.hint.injEq] at h
      omega
    | recv m sendOk deadlineOk =>
      rw [remoteLoop] at h
      split_ifs at h <;>
        first
          | (simp only [RemoteResult.hint.injEq] at h; omega)
          | exact ih h

/-- C9: whenever a run of `remote` returns a retry hint, that hint is 0,
9, or 99, and it is 99 exactly in the case where the dial succeeded but
setting the initial deadline on the fresh connection failed. -/
theorem c9_hint_values (c : Context) (fast : Bool) (env : RemoteEnv) (n : Nat)
    (h : (remote c fast env).2 = RemoteResult.hint n) :
    (n = 0 ∨ n = 9 ∨ n = 99) ∧
    (n = 99 → env.dialOk = true ∧ env.deadlineOk = false) := by
  rw [remote] at h
  split_ifs at h with h1 h2 h3 h4
  · simp only [RemoteResult.hint.injEq] at h
    omega
  · simp only [RemoteResult.hint.injEq] at h
    constructor
    · omega
    · intro _
      simp only [Bool.not_eq_true'] at h1 h2
      exact ⟨by simpa using h1, by simpa using h2⟩
  · simp only [RemoteResult.hint.injEq] at h
    omega
  · simp only [RemoteResult.hint.injEq] at h
    omega
  · rcases remoteLoop_hint_values fast env.events n h with h0 | h9 <;> omega

/-- An environment whose initial deadline call fails. -/
def deadlineFailEnv : RemoteEnv :=
  { dialOk := true, deadlineOk := false, tlsOk := true, sendListenOk := true,
    events := [] }

/-- The context of the C8 witness flags. -/
def sampleContext : Context :=
  { raddr := str "free.b4ck.net:1", laddr := str ":80", port := 443,
    key := [1, 2, 3, 4, 5, 6], tlsEnabled := true }

/-- Witness for C9: the deadline-failure environment yields hint 99. -/
theorem c9_hint_values_witness :
    (99 = 0 ∨ 99 = 9 ∨ 99 = 99) ∧
    (99 = 99 → deadlineFailEnv.dialOk = true ∧
      deadlineFailEnv.deadlineOk = false) :=
  c9_hint_values sampleContext false deadlineFailEnv 99 rfl

/-! ## Claim C10: `success` gating and cleanup in the handoff -/

/-- C10: the handoff sends `success` only when both the local dial and
the local deadline succeeded; if the dial fails, no `success` send is
attempted and the rendezvous connection is closed; if the dial succeeds
but the deadline fails, no `success` send is attempted and both the
local and the rendezvous connections are closed. -/
theorem c10_success_gating (m : Msg) (dialOk deadlineOk sendOk : Bool) :
    ((∃ b, LocalEvent.sendSuccess b ∈ localRun m dialOk deadlineOk sendOk) →
      dialOk = true ∧ deadlineOk = true) ∧
    (dialOk = false →
      (∀ b, LocalEvent.sendSuccess b ∉ localRun m dialOk deadlineOk sendOk) ∧
      LocalEvent.closeR ∈ localRun m dialOk deadlineOk sendOk) ∧
    (dialOk = true → deadlineOk = false →
      (∀ b, LocalEvent.sendSuccess b ∉ localRun m dialOk deadlineOk sendOk) ∧
      LocalEvent.closeL ∈ localRun m dialOk deadlineOk sendOk ∧
      LocalEvent.closeR ∈ localRun m dialOk deadlineOk sendOk) := by
  cases hf : m.fast <;> cases dialOk <;> cases deadlineOk <;> cases sendOk <;>
    simp [localRun, hf]

/-- Witness for C10 at a failing local dial on a `start{Fast:false}`
handoff. -/
theorem c10_success_gating_witness :
    ((∃ b, LocalEvent.sendSuccess b ∈ localRun startNoFastMsg false true true) →
      false = true ∧ true = true) ∧
    (false = false →
      (∀ b, LocalEvent.sendSuccess b ∉ localRun startNoFastMsg false true true) ∧
      LocalEvent.closeR ∈ localRun startNoFastMsg false true true) ∧
    (false = true → true = false →
      (∀ b, LocalEvent.sendSuccess b ∉ localRun startNoFastMsg false true true) ∧
      LocalEvent.closeL ∈ localRun startNoFastMsg false true true ∧
      LocalEvent.closeR ∈ localRun startNoFastMsg false true true) :=
  c10_success_gating startNoFastMsg false true true
